import Mathlib

/-!
Shallow embedding of `src/server/api/memobase_server/telemetry/open_telemetry.py`
(memobase repository).

The module defines three metric-name enumerations (counters, histograms,
gauges), a `TelemetryManager` class holding a registry `self.metrics` from
enum members to OpenTelemetry instrument objects, setup methods, three
record operations, and an import-time global instance.

Modelling conventions:
- Python enum classes become inductive types; the enum `value` strings and
  the `descriptions` dictionaries are transcribed verbatim from the source.
- The registry dictionary becomes an association list with Python-dict
  update semantics (an existing key is overwritten in place, a new key is
  appended at the end).
- A method that can raise returns a `PyResult`, which carries both the
  outcome and the manager state at the moment of return or raise; the
  source raises before any mutation in every failure path, so the carried
  state on the `exn` side is the state the caller's object has after the
  exception propagates.
- The external OpenTelemetry objects (resource, reader, provider) carry no
  observable state for this development; a meter handle is modelled by the
  name it was obtained with, since the source only tests it for truthiness.
- `start_http_server` is an external effect: its outcome is an input to
  `setup_telemetry` (`none` for a successful bind, `some e` for an
  `OSError` with errno `e`).
- Instrument objects are external library state; they are modelled by
  their construction arguments plus an accumulated value. Measurement
  values are modelled as `Int`; attribute sets are accepted but the model
  aggregates measurements without per-attribute breakdown, and nothing
  below depends on either simplification.
- Python attribute dispatch is dynamic: calling `.add` on a histogram or
  gauge instance raises `AttributeError`. The record operations therefore
  take any catalog identity, as the runtime does, and dispatch on the kind
  of the instrument found in the registry.
-/

/-- `class CounterMetricName(Enum)` — the five counter identities, in
definition order, with their `value` strings. -/
inductive CounterMetricName where
  | REQUEST
  | HEALTHCHECK
  | LLM_INVOCATIONS
  | LLM_TOKENS_INPUT
  | LLM_TOKENS_OUTPUT
  deriving DecidableEq, Fintype, Repr

/-- `class HistogramMetricName(Enum)` — the two histogram identities. -/
inductive HistogramMetricName where
  | LLM_LATENCY_MS
  | REQUEST_LATENCY_MS
  deriving DecidableEq, Fintype, Repr

/-- `class GaugeMetricName(Enum)` — the two gauge identities. -/
inductive GaugeMetricName where
  | INPUT_TOKEN_COUNT
  | OUTPUT_TOKEN_COUNT
  deriving DecidableEq, Fintype, Repr

/-- The `value` string of each `CounterMetricName` member. -/
def CounterMetricName.value : CounterMetricName → String
  | .REQUEST => "requests_total"
  | .HEALTHCHECK => "healthcheck_total"
  | .LLM_INVOCATIONS => "llm_invocations_total"
  | .LLM_TOKENS_INPUT => "llm_tokens_input_total"
  | .LLM_TOKENS_OUTPUT => "llm_tokens_output_total"

/-- The `value` string of each `HistogramMetricName` member. -/
def HistogramMetricName.value : HistogramMetricName → String
  | .LLM_LATENCY_MS => "llm_latency"
  | .REQUEST_LATENCY_MS => "request_latency"

/-- The `value` string of each `GaugeMetricName` member. -/
def GaugeMetricName.value : GaugeMetricName → String
  | .INPUT_TOKEN_COUNT => "input_token_count_per_call"
  | .OUTPUT_TOKEN_COUNT => "output_token_count_per_call"

/-- The member name, as Python `str()` renders it inside an f-string
(`CounterMetricName.REQUEST` etc.); used for exception messages. -/
def CounterMetricName.memberName : CounterMetricName → String
  | .REQUEST => "REQUEST"
  | .HEALTHCHECK => "HEALTHCHECK"
  | .LLM_INVOCATIONS => "LLM_INVOCATIONS"
  | .LLM_TOKENS_INPUT => "LLM_TOKENS_INPUT"
  | .LLM_TOKENS_OUTPUT => "LLM_TOKENS_OUTPUT"

/-- Member name of each `HistogramMetricName`, as Python `str()` renders it. -/
def HistogramMetricName.memberName : HistogramMetricName → String
  | .LLM_LATENCY_MS => "LLM_LATENCY_MS"
  | .REQUEST_LATENCY_MS => "REQUEST_LATENCY_MS"

/-- Member name of each `GaugeMetricName`, as Python `str()` renders it. -/
def GaugeMetricName.memberName : GaugeMetricName → String
  | .INPUT_TOKEN_COUNT => "INPUT_TOKEN_COUNT"
  | .OUTPUT_TOKEN_COUNT => "OUTPUT_TOKEN_COUNT"

/-- Iteration order of `for metric in CounterMetricName` (definition order). -/
def CounterMetricName.members : List CounterMetricName :=
  [.REQUEST, .HEALTHCHECK, .LLM_INVOCATIONS, .LLM_TOKENS_INPUT, .LLM_TOKENS_OUTPUT]

/-- Iteration order of `for metric in HistogramMetricName`. -/
def HistogramMetricName.members : List HistogramMetricName :=
  [.LLM_LATENCY_MS, .REQUEST_LATENCY_MS]

/-- Iteration order of `for metric in GaugeMetricName`. -/
def GaugeMetricName.members : List GaugeMetricName :=
  [.INPUT_TOKEN_COUNT, .OUTPUT_TOKEN_COUNT]

/-- Association-list lookup with Python-dict semantics (`d[k]` /
`k in d`): the binding of the first matching key, if any. -/
def dictLookup {α β : Type} [DecidableEq α] : List (α × β) → α → Option β
  | [], _ => none
  | (k', v) :: t, k => if k' = k then some v else dictLookup t k

/-- Association-list update with Python-dict semantics (`d[k] = v`): an
existing key is overwritten in place, a new key is appended at the end. -/
def dictInsert {α β : Type} [DecidableEq α] : List (α × β) → α → β → List (α × β)
  | [], k, v => [(k, v)]
  | (k', v') :: t, k, v =>
      if k' = k then (k, v) :: t else (k', v') :: dictInsert t k v

/-- The `descriptions` dictionary inside `CounterMetricName.get_description`. -/
def CounterMetricName.descriptions : List (CounterMetricName × String) :=
  [(.REQUEST, "Total number of requests to the memobase server"),
   (.HEALTHCHECK, "Total number of healthcheck requests to the memobase server"),
   (.LLM_INVOCATIONS, "Total number of LLM invocations"),
   (.LLM_TOKENS_INPUT, "Total number of input tokens"),
   (.LLM_TOKENS_OUTPUT, "Total number of output tokens")]

/-- `CounterMetricName.get_description` — `descriptions[self]`; `none`
models the `KeyError` a missing dictionary entry would raise. -/
def CounterMetricName.get_description (self : CounterMetricName) : Option String :=
  dictLookup CounterMetricName.descriptions self

/-- `CounterMetricName.get_metric_name` — the service-prefixed wire name. -/
def CounterMetricName.get_metric_name (self : CounterMetricName) : String :=
  "memobase_server_" ++ self.value

/-- The `descriptions` dictionary inside `HistogramMetricName.get_description`. -/
def HistogramMetricName.descriptions : List (HistogramMetricName × String) :=
  [(.LLM_LATENCY_MS, "Latency of the LLM in milliseconds"),
   (.REQUEST_LATENCY_MS, "Latency of the request in milliseconds")]

/-- `HistogramMetricName.get_description` — `descriptions[self]`. -/
def HistogramMetricName.get_description (self : HistogramMetricName) : Option String :=
  dictLookup HistogramMetricName.descriptions self

/-- `HistogramMetricName.get_metric_name` — the service-prefixed wire name. -/
def HistogramMetricName.get_metric_name (self : HistogramMetricName) : String :=
  "memobase_server_" ++ self.value

/-- The `descriptions` dictionary inside `GaugeMetricName.get_description`. -/
def GaugeMetricName.descriptions : List (GaugeMetricName × String) :=
  [(.INPUT_TOKEN_COUNT, "Number of input tokens per call"),
   (.OUTPUT_TOKEN_COUNT, "Number of output tokens per call")]

/-- `GaugeMetricName.get_description` — `descriptions[self]`. -/
def GaugeMetricName.get_description (self : GaugeMetricName) : Option String :=
  dictLookup GaugeMetricName.descriptions self

/-- `GaugeMetricName.get_metric_name` — the service-prefixed wire name. -/
def GaugeMetricName.get_metric_name (self : GaugeMetricName) : String :=
  "memobase_server_" ++ self.value

/-- A registry key: a member of any of the three metric enumerations, the
key type of the `self.metrics` dictionary
(`Dict[CounterMetricName | HistogramMetricName | GaugeMetricName, ...]`). -/
inductive MetricKey where
  | counter (c : CounterMetricName)
  | histogram (h : HistogramMetricName)
  | gauge (g : GaugeMetricName)
  deriving DecidableEq, Fintype, Repr

/-- The three instrument kinds. -/
inductive MetricKind where
  | counter
  | histogram
  | gauge
  deriving DecidableEq, Repr

/-- The kind a catalog identity belongs to (which enumeration it is from). -/
def MetricKey.kind : MetricKey → MetricKind
  | .counter _ => .counter
  | .histogram _ => .histogram
  | .gauge _ => .gauge

/-- Dispatch of `get_metric_name` over the union key type. -/
def MetricKey.get_metric_name : MetricKey → String
  | .counter c => c.get_metric_name
  | .histogram h => h.get_metric_name
  | .gauge g => g.get_metric_name

/-- Dispatch of `get_description` over the union key type. -/
def MetricKey.get_description : MetricKey → Option String
  | .counter c => c.get_description
  | .histogram h => h.get_description
  | .gauge g => g.get_description

/-- The raw enum `value` string of a catalog identity. -/
def MetricKey.rawValue : MetricKey → String
  | .counter c => c.value
  | .histogram h => h.value
  | .gauge g => g.value

/-- Python `str()` of the enum member, as an f-string interpolates it. -/
def MetricKey.pyStr : MetricKey → String
  | .counter c => "CounterMetricName." ++ c.memberName
  | .histogram h => "HistogramMetricName." ++ h.memberName
  | .gauge g => "GaugeMetricName." ++ g.memberName

/-- The whole catalog, in the order `setup_metrics` iterates it: the
counter loop, then the histogram loop, then the gauge loop. -/
def catalogKeys : List MetricKey :=
  CounterMetricName.members.map MetricKey.counter
    ++ HistogramMetricName.members.map MetricKey.histogram
    ++ GaugeMetricName.members.map MetricKey.gauge

/-- An OpenTelemetry instrument object, modelled by its construction
arguments (`name`, `unit`, `description`) and its accumulated state:
a counter total, a histogram list of recorded values, or a gauge current
value. -/
inductive Instrument where
  | counter (name unit description : String) (total : Int)
  | histogram (name unit description : String) (values : List Int)
  | gauge (name unit description : String) (current : Int)
  deriving DecidableEq, Repr

/-- The concrete class of an instrument object (what Python dispatch sees). -/
def Instrument.kind : Instrument → MetricKind
  | .counter _ _ _ _ => .counter
  | .histogram _ _ _ _ => .histogram
  | .gauge _ _ _ _ => .gauge

/-- The class name of an instrument object, as an `AttributeError` from a
failed method resolution reports it. -/
def Instrument.className : Instrument → String
  | .counter _ _ _ _ => "Counter"
  | .histogram _ _ _ _ => "Histogram"
  | .gauge _ _ _ _ => "Gauge"

/-- `meter.create_counter(name, unit=..., description=...)` — a fresh
counter instrument with total `0`. -/
def create_counter (name unit description : String) : Instrument :=
  .counter name unit description 0

/-- `meter.create_histogram(name, unit=..., description=...)`. -/
def create_histogram (name unit description : String) : Instrument :=
  .histogram name unit description []

/-- `meter.create_gauge(name, unit=..., description=...)`. -/
def create_gauge (name unit description : String) : Instrument :=
  .gauge name unit description 0

/-- Optional label attributes (`Dict[str, str]`, default `None`). -/
abbrev Attributes := List (String × String)

/-- `class TelemetryManager` — its instance fields. `meter` models
`self._meter`, which starts as `None` and is set by `setup_telemetry` to
`metrics.get_meter(self.service_name)`; the handle is represented by the
name it was obtained with. -/
structure TelemetryManager where
  service_name : String
  prometheus_port : Nat
  metrics : List (MetricKey × Instrument)
  meter : Option String
  deriving DecidableEq, Repr

/-- `TelemetryManager.__init__` (defaults at the call sites:
`service_name="memobase-server"`, `prometheus_port=9464`). -/
def TelemetryManager.pyInit (service_name : String) (prometheus_port : Nat) :
    TelemetryManager :=
  { service_name := service_name, prometheus_port := prometheus_port,
    metrics := [], meter := none }

/-- A Python exception, as the embedded methods can raise them. -/
inductive PyError where
  | osError (errno : Nat)
  | keyError (msg : String)
  | runtimeError (msg : String)
  | attributeError (msg : String)
  deriving DecidableEq, Repr

/-- Outcome of a method call: either a normal return with a value, or a
raised exception. Both sides carry the manager state as the caller
observes it afterwards. -/
inductive PyResult (α : Type) where
  | ok (val : α) (st : TelemetryManager)
  | exn (e : PyError) (st : TelemetryManager)
  deriving DecidableEq, Repr

/-- `TelemetryManager.setup_telemetry`. The resource, reader, provider and
global meter-provider registration are external effects with no state in
this model. `bindResult` is the outcome of `start_http_server(self.prometheus_port)`:
`none` on success, `some e` for an `OSError` with errno `e`. The source
swallows errno 48 (its comment: address already in use), logging a warning,
and re-raises any other `OSError`; on every non-raising path it then sets
`self._meter`. The returned value is the list of log lines emitted. -/
def setup_telemetry (self : TelemetryManager) (bindResult : Option Nat) :
    PyResult (List String) :=
  match bindResult with
  | none => .ok [] { self with meter := some self.service_name }
  | some e =>
      if e = 48 then
        .ok ["Prometheus HTTP server already running on port "
              ++ toString self.prometheus_port]
           { self with meter := some self.service_name }
      else
        .exn (.osError e) self

/-- One pass of the `setup_metrics` creation loops over a list of catalog
identities: for each identity, evaluate its description (a dictionary
lookup that raises `KeyError` if the entry were missing) and insert the
created instrument into `self.metrics`. The unit argument mirrors each
loop's `create_*` call: `"1"` for counters and gauges, `"ms"` for
histograms. -/
def createFor : MetricKey → String → Instrument
  | .counter c, d => create_counter c.get_metric_name "1" d
  | .histogram h, d => create_histogram h.get_metric_name "ms" d
  | .gauge g, d => create_gauge g.get_metric_name "1" d

/-- The body of the three `setup_metrics` loops, run over a key list. A
missing description entry would raise out of the loop, leaving the
registry as populated so far. -/
def setupLoop (self : TelemetryManager) : List MetricKey → PyResult Unit
  | [] => .ok () self
  | k :: rest =>
      match k.get_description with
      | none => .exn (.keyError k.pyStr) self
      | some d =>
          setupLoop { self with metrics := dictInsert self.metrics k (createFor k d) } rest

/-- `TelemetryManager.setup_metrics`: raise `RuntimeError` if `self._meter`
is unset, otherwise run the counter, histogram and gauge creation loops in
definition order. -/
def setup_metrics (self : TelemetryManager) : PyResult Unit :=
  match self.meter with
  | none => .exn (.runtimeError "Call setup_telemetry() before setup_metrics()") self
  | some _ => setupLoop self catalogKeys

/-- `TelemetryManager.increment_counter_metric`. The guard is membership
in `self.metrics`; on a hit, `.add` is resolved dynamically on the stored
instrument and raises `AttributeError` unless it is a counter. -/
def increment_counter_metric (self : TelemetryManager) (metric : MetricKey)
    (value : Int) (attributes : Option Attributes) : PyResult Unit :=
  match dictLookup self.metrics metric with
  | none => .exn (.keyError ("Metric " ++ metric.pyStr ++ " not initialized")) self
  | some inst =>
      match inst with
      | .counter n u d total =>
          .ok () { self with
                   metrics := dictInsert self.metrics metric (.counter n u d (total + value)) }
      | .histogram _ _ _ _ =>
          .exn (.attributeError "Histogram object has no attribute add") self
      | .gauge _ _ _ _ =>
          .exn (.attributeError "Gauge object has no attribute add") self

/-- `TelemetryManager.record_histogram_metric`; `.record` resolves only on
a histogram instrument. -/
def record_histogram_metric (self : TelemetryManager) (metric : MetricKey)
    (value : Int) (attributes : Option Attributes) : PyResult Unit :=
  match dictLookup self.metrics metric with
  | none => .exn (.keyError ("Metric " ++ metric.pyStr ++ " not initialized")) self
  | some inst =>
      match inst with
      | .histogram n u d values =>
          .ok () { self with
                   metrics := dictInsert self.metrics metric (.histogram n u d (values ++ [value])) }
      | .counter _ _ _ _ =>
          .exn (.attributeError "Counter object has no attribute record") self
      | .gauge _ _ _ _ =>
          .exn (.attributeError "Gauge object has no attribute record") self

/-- `TelemetryManager.set_gauge_metric`; `.set` resolves only on a gauge
instrument. -/
def set_gauge_metric (self : TelemetryManager) (metric : MetricKey)
    (value : Int) (attributes : Option Attributes) : PyResult Unit :=
  match dictLookup self.metrics metric with
  | none => .exn (.keyError ("Metric " ++ metric.pyStr ++ " not initialized")) self
  | some inst =>
      match inst with
      | .gauge n u d _ =>
          .ok () { self with
                   metrics := dictInsert self.metrics metric (.gauge n u d value) }
      | .counter _ _ _ _ =>
          .exn (.attributeError "Counter object has no attribute set") self
      | .histogram _ _ _ _ =>
          .exn (.attributeError "Histogram object has no attribute set") self

/-- The module's import-time tail:
`telemetry_manager = TelemetryManager()` (defaults), then
`telemetry_manager.setup_telemetry()`, then
`telemetry_manager.setup_metrics()`. An exception in either call
propagates out of the import. The value carried on success is the log
output of `setup_telemetry`. -/
def moduleImport (bindResult : Option Nat) : PyResult (List String) :=
  let tm := TelemetryManager.pyInit "memobase-server" 9464
  match setup_telemetry tm bindResult with
  | .exn e st => .exn e st
  | .ok logs st1 =>
      match setup_metrics st1 with
      | .exn e st => .exn e st
      | .ok _ st2 => .ok logs st2

/-- The global `telemetry_manager` after a module import in which the port
bind succeeded. -/
def stateAfterImport : TelemetryManager :=
  match moduleImport none with
  | .ok _ st => st
  | .exn _ st => st

/-- Did a call raise a `KeyError` (of any message)? -/
def raisedKeyError {α : Type} : PyResult α → Bool
  | .exn (.keyError _) _ => true
  | _ => false

/-- The registry produced by running the `setup_metrics` creation loops on
an empty registry, written out entry by entry. -/
def fullRegistry : List (MetricKey × Instrument) :=
  [(.counter .REQUEST,
      .counter "memobase_server_requests_total" "1"
        "Total number of requests to the memobase server" 0),
   (.counter .HEALTHCHECK,
      .counter "memobase_server_healthcheck_total" "1"
        "Total number of healthcheck requests to the memobase server" 0),
   (.counter .LLM_INVOCATIONS,
      .counter "memobase_server_llm_invocations_total" "1"
        "Total number of LLM invocations" 0),
   (.counter .LLM_TOKENS_INPUT,
      .counter "memobase_server_llm_tokens_input_total" "1"
        "Total number of input tokens" 0),
   (.counter .LLM_TOKENS_OUTPUT,
      .counter "memobase_server_llm_tokens_output_total" "1"
        "Total number of output tokens" 0),
   (.histogram .LLM_LATENCY_MS,
      .histogram "memobase_server_llm_latency" "ms"
        "Latency of the LLM in milliseconds" []),
   (.histogram .REQUEST_LATENCY_MS,
      .histogram "memobase_server_request_latency" "ms"
        "Latency of the request in milliseconds" []),
   (.gauge .INPUT_TOKEN_COUNT,
      .gauge "memobase_server_input_token_count_per_call" "1"
        "Number of input tokens per call" 0),
   (.gauge .OUTPUT_TOKEN_COUNT,
      .gauge "memobase_server_output_token_count_per_call" "1"
        "Number of output tokens per call" 0)]

/-- Looking up the key just inserted finds the inserted value. -/
theorem dictLookup_dictInsert_self {α β : Type} [DecidableEq α]
    (d : List (α × β)) (k : α) (v : β) :
    dictLookup (dictInsert d k v) k = some v := by
  induction d with
  | nil => simp [dictInsert, dictLookup]
  | cons p t ih =>
      obtain ⟨k', v'⟩ := p
      by_cases h : k' = k <;> simp [dictInsert, dictLookup, h, ih]

/-- Inserting one key leaves the binding of every other key unchanged. -/
theorem dictLookup_dictInsert_ne {α β : Type} [DecidableEq α]
    (d : List (α × β)) (kIns kLook : α) (v : β) (h : kIns ≠ kLook) :
    dictLookup (dictInsert d kIns v) kLook = dictLookup d kLook := by
  induction d with
  | nil => simp [dictInsert, dictLookup, h]
  | cons p t ih =>
      obtain ⟨k', v'⟩ := p
      by_cases hk : k' = kIns
      · subst hk
        simp [dictInsert, dictLookup, h]
      · simp [dictInsert, dictLookup, hk, ih]

/-- When every identity in the list has a description, the creation loop
returns normally, every listed identity ends up bound in the registry, and
every unlisted key keeps its previous binding. -/
theorem setupLoop_spec : ∀ (ks : List MetricKey) (st : TelemetryManager),
    (∀ k ∈ ks, (MetricKey.get_description k).isSome) →
    ∃ st1, setupLoop st ks = .ok () st1
      ∧ (∀ k ∈ ks, (dictLookup st1.metrics k).isSome)
      ∧ (∀ k, k ∉ ks → dictLookup st1.metrics k = dictLookup st.metrics k) := by
  intro ks
  induction ks with
  | nil =>
      intro st _
      exact ⟨st, rfl, by simp, fun k _ => rfl⟩
  | cons k rest ih =>
      intro st hdesc
      have hk : (MetricKey.get_description k).isSome := hdesc k (by simp)
      obtain ⟨d, hd⟩ := Option.isSome_iff_exists.mp hk
      have hrest : ∀ k' ∈ rest, (MetricKey.get_description k').isSome :=
        fun k' hk' => hdesc k' (by simp [hk'])
      obtain ⟨st1, hrun, hmem, hpres⟩ :=
        ih { st with metrics := dictInsert st.metrics k (createFor k d) } hrest
      refine ⟨st1, ?_, ?_, ?_⟩
      · simp [setupLoop, hd, hrun]
      · intro k0 hk0
        rcases List.mem_cons.mp hk0 with rfl | h0
        · by_cases hmr : k0 ∈ rest
          · exact hmem k0 hmr
          · rw [hpres k0 hmr]
            simp [dictLookup_dictInsert_self]
        · exact hmem k0 h0
      · intro k0 hk0
        have h1 : k ≠ k0 := fun he => hk0 (he ▸ List.mem_cons_self k rest)
        have h2 : k0 ∉ rest := fun he => hk0 (List.mem_cons_of_mem _ he)
        rw [hpres k0 h2]
        exact dictLookup_dictInsert_ne _ _ _ _ h1

/-- Running the creation loops over the whole catalog from an empty
registry yields exactly `fullRegistry`, whatever the other fields hold. -/
theorem setupLoop_from_empty (n : String) (p : Nat) (mt : Option String) :
    setupLoop ⟨n, p, [], mt⟩ catalogKeys = .ok () ⟨n, p, fullRegistry, mt⟩ := rfl

/-- Claim C1: on a bind failure, `setup_telemetry` swallows exactly the
address-already-in-use errno (48, per the source comment), logging a
warning and returning normally with the meter set; every other `OSError`
propagates to the caller with the manager unchanged. -/
theorem setup_telemetry_bind_error_handling (self : TelemetryManager) (e : Nat) :
    setup_telemetry self (some e) =
      if e = 48 then
        .ok ["Prometheus HTTP server already running on port "
              ++ toString self.prometheus_port]
           { self with meter := some self.service_name }
      else
        .exn (.osError e) self := rfl

/-- Claim C5: `setup_metrics` before `setup_telemetry` (meter handle
unset) raises the `RuntimeError` and leaves the whole manager — registry
included — unchanged. -/
theorem setup_metrics_requires_meter (s : TelemetryManager) (h : s.meter = none) :
    setup_metrics s =
      .exn (.runtimeError "Call setup_telemetry() before setup_metrics()") s := by
  simp [setup_metrics, h]

/-- Witness for `setup_metrics_requires_meter` at a freshly constructed
manager. -/
theorem setup_metrics_requires_meter_witness :
    setup_metrics (TelemetryManager.pyInit "memobase-server" 9464) =
      .exn (.runtimeError "Call setup_telemetry() before setup_metrics()")
        (TelemetryManager.pyInit "memobase-server" 9464) :=
  setup_metrics_requires_meter (TelemetryManager.pyInit "memobase-server" 9464) rfl

/-- Claim C3: `setup_metrics` is all-or-nothing — it either returns
normally with every catalog identity bound in the registry, or raises
with the manager exactly as it was before the call. -/
theorem setup_metrics_all_or_nothing (s : TelemetryManager) :
    match setup_metrics s with
    | .ok _ s1 => (catalogKeys.all fun k => (dictLookup s1.metrics k).isSome) = true
    | .exn _ s1 => s1 = s := by
  match hm : s.meter with
  | none => simp [setup_metrics, hm]
  | some m =>
      simp only [setup_metrics, hm]
      obtain ⟨st1, hrun, hmem, _⟩ := setupLoop_spec catalogKeys s (by decide)
      rw [hrun]
      simp only [List.all_eq_true]
      intro k hk
      exact hmem k hk

/-- Claim C4: a successful `setup_metrics` on a manager with an empty
registry leaves the registry keyed by exactly the catalog identities, in
catalog order, each bound to an instrument of the matching kind. -/
theorem setup_metrics_registry_exact (s : TelemetryManager)
    (h1 : s.metrics = []) (h2 : s.meter.isSome) :
    match setup_metrics s with
    | .ok _ s1 =>
        s1.metrics.map Prod.fst = catalogKeys
        ∧ (s1.metrics.all fun q => decide (q.2.kind = q.1.kind)) = true
    | .exn _ _ => False := by
  obtain ⟨n, p, ms, mt⟩ := s
  obtain ⟨m, hmt⟩ := Option.isSome_iff_exists.mp h2
  simp only at h1 hmt
  subst h1 hmt
  simp only [setup_metrics]
  rw [setupLoop_from_empty]
  exact ⟨(by decide : fullRegistry.map Prod.fst = catalogKeys),
         (by decide : (fullRegistry.all fun q => decide (q.2.kind = q.1.kind)) = true)⟩

/-- Witness for `setup_metrics_registry_exact` at a freshly constructed
manager whose meter has been set. -/
theorem setup_metrics_registry_exact_witness :
    match setup_metrics { service_name := "memobase-server", prometheus_port := 9464,
                          metrics := [], meter := some "memobase-server" } with
    | .ok _ s1 =>
        s1.metrics.map Prod.fst = catalogKeys
        ∧ (s1.metrics.all fun q => decide (q.2.kind = q.1.kind)) = true
    | .exn _ _ => False :=
  setup_metrics_registry_exact
    { service_name := "memobase-server", prometheus_port := 9464,
      metrics := [], meter := some "memobase-server" } rfl rfl

/-- Claim C6: wire names are unique across the whole catalog — any two
distinct identities, from the same enumeration or different ones, have
different `get_metric_name` results. -/
theorem catalog_wire_names_unique (k1 k2 : MetricKey) (h : k1 ≠ k2) :
    k1.get_metric_name ≠ k2.get_metric_name := by
  revert h
  revert k2
  revert k1
  decide

/-- Witness for `catalog_wire_names_unique`: a counter and a gauge
identity. -/
theorem catalog_wire_names_unique_witness :
    (MetricKey.counter .REQUEST).get_metric_name
      ≠ (MetricKey.gauge .INPUT_TOKEN_COUNT).get_metric_name :=
  catalog_wire_names_unique (.counter .REQUEST) (.gauge .INPUT_TOKEN_COUNT) (by decide)

/-- Claim C7: catalog lookup is pure and total — for every catalog
identity, `get_metric_name` is the fixed service prefix followed by the
enum value, and the `get_description` dictionary lookup succeeds. -/
theorem catalog_lookup_pure_total (k : MetricKey) :
    k.get_metric_name = "memobase_server_" ++ k.rawValue
      ∧ (k.get_description).isSome := by
  revert k
  decide

/-- Claim C9: on an identity absent from the registry, each of the three
record operations raises a `KeyError` whose message names the metric, and
the manager — registry, meter, service name, port — is exactly the one
before the call. -/
theorem record_ops_absent_key_raise_and_preserve (s : TelemetryManager)
    (k : MetricKey) (v x y : Int) (a b c : Option Attributes)
    (h : dictLookup s.metrics k = none) :
    increment_counter_metric s k v a
        = .exn (.keyError ("Metric " ++ k.pyStr ++ " not initialized")) s
    ∧ record_histogram_metric s k x b
        = .exn (.keyError ("Metric " ++ k.pyStr ++ " not initialized")) s
    ∧ set_gauge_metric s k y c
        = .exn (.keyError ("Metric " ++ k.pyStr ++ " not initialized")) s := by
  refine ⟨?_, ?_, ?_⟩ <;>
    simp [increment_counter_metric, record_histogram_metric, set_gauge_metric, h]

/-- Witness for `record_ops_absent_key_raise_and_preserve` at a fresh
manager, whose registry is empty. -/
theorem record_ops_absent_key_witness :
    increment_counter_metric (TelemetryManager.pyInit "memobase-server" 9464)
        (.counter .REQUEST) 1 none
        = .exn (.keyError ("Metric " ++ (MetricKey.counter .REQUEST).pyStr
            ++ " not initialized")) (TelemetryManager.pyInit "memobase-server" 9464)
    ∧ record_histogram_metric (TelemetryManager.pyInit "memobase-server" 9464)
        (.counter .REQUEST) 2 none
        = .exn (.keyError ("Metric " ++ (MetricKey.counter .REQUEST).pyStr
            ++ " not initialized")) (TelemetryManager.pyInit "memobase-server" 9464)
    ∧ set_gauge_metric (TelemetryManager.pyInit "memobase-server" 9464)
        (.counter .REQUEST) 3 none
        = .exn (.keyError ("Metric " ++ (MetricKey.counter .REQUEST).pyStr
            ++ " not initialized")) (TelemetryManager.pyInit "memobase-server" 9464) :=
  record_ops_absent_key_raise_and_preserve
    (TelemetryManager.pyInit "memobase-server" 9464) (.counter .REQUEST)
    1 2 3 none none none rfl

/-- Claim C2, counterexample: after the import-time setup, a histogram
identity passed to the counter operation is found in the registry (the
registry holds identities of all kinds), so the call does not raise the
unknown-metric `KeyError`; it raises `AttributeError` from resolving
`.add` on a histogram instrument. -/
theorem wrong_kind_not_a_key_error :
    increment_counter_metric stateAfterImport (.histogram .LLM_LATENCY_MS) 1 none
        = .exn (.attributeError "Histogram object has no attribute add") stateAfterImport
    ∧ raisedKeyError
        (increment_counter_metric stateAfterImport (.histogram .LLM_LATENCY_MS) 1 none)
        = false := by
  exact ⟨by decide, by decide⟩

/-- Claim C2, amended: before `setup_metrics` has run (empty registry),
every record operation on every identity raises the not-initialized
`KeyError` and leaves the manager unchanged; in any state in which an
identity is bound to an instrument whose kind does not match the
operation, the call passes the registry-membership guard and raises
`AttributeError` from dynamic resolution of the kind-specific method
(`.add`, `.record`, `.set`) on the mismatched instrument, again leaving
the manager unchanged — in no failure case is an instrument mutated. -/
theorem record_ops_wrong_kind_semantics
    (s0 sc sh sg : TelemetryManager) (k0 kc kh kg : MetricKey)
    (ic ih ig : Instrument) (v x y : Int) (a : Option Attributes)
    (hempty : s0.metrics = [])
    (hc : dictLookup sc.metrics kc = some ic) (hkc : ic.kind ≠ .counter)
    (hh : dictLookup sh.metrics kh = some ih) (hkh : ih.kind ≠ .histogram)
    (hg : dictLookup sg.metrics kg = some ig) (hkg : ig.kind ≠ .gauge) :
    increment_counter_metric s0 k0 v a
        = .exn (.keyError ("Metric " ++ k0.pyStr ++ " not initialized")) s0
    ∧ record_histogram_metric s0 k0 x a
        = .exn (.keyError ("Metric " ++ k0.pyStr ++ " not initialized")) s0
    ∧ set_gauge_metric s0 k0 y a
        = .exn (.keyError ("Metric " ++ k0.pyStr ++ " not initialized")) s0
    ∧ increment_counter_metric sc kc v a
        = .exn (.attributeError (ic.className ++ " object has no attribute add")) sc
    ∧ record_histogram_metric sh kh x a
        = .exn (.attributeError (ih.className ++ " object has no attribute record")) sh
    ∧ set_gauge_metric sg kg y a
        = .exn (.attributeError (ig.className ++ " object has no attribute set")) sg := by
  refine ⟨?_, ?_, ?_, ?_, ?_, ?_⟩
  · simp [increment_counter_metric, hempty, dictLookup]
  · simp [record_histogram_metric, hempty, dictLookup]
  · simp [set_gauge_metric, hempty, dictLookup]
  · cases ic with
    | counter n u d t => exact absurd rfl hkc
    | histogram n u d vs => simp [increment_counter_metric, hc, Instrument.className]
    | gauge n u d cv => simp [increment_counter_metric, hc, Instrument.className]
  · cases ih with
    | histogram n u d vs => exact absurd rfl hkh
    | counter n u d t => simp [record_histogram_metric, hh, Instrument.className]
    | gauge n u d cv => simp [record_histogram_metric, hh, Instrument.className]
  · cases ig with
    | gauge n u d cv => exact absurd rfl hkg
    | counter n u d t => simp [set_gauge_metric, hg, Instrument.className]
    | histogram n u d vs => simp [set_gauge_metric, hg, Instrument.className]

/-- Witness for `record_ops_wrong_kind_semantics`: the empty-registry
half at a fresh manager, the wrong-kind half at the post-import state,
with a histogram instrument for the counter operation, a counter
instrument for the histogram operation, and a histogram instrument for
the gauge operation. -/
theorem record_ops_wrong_kind_semantics_witness :
    increment_counter_metric (TelemetryManager.pyInit "memobase-server" 9464)
        (.gauge .INPUT_TOKEN_COUNT) 1 none
        = .exn (.keyError ("Metric " ++ (MetricKey.gauge .INPUT_TOKEN_COUNT).pyStr
            ++ " not initialized")) (TelemetryManager.pyInit "memobase-server" 9464)
    ∧ record_histogram_metric (TelemetryManager.pyInit "memobase-server" 9464)
        (.gauge .INPUT_TOKEN_COUNT) 2 none
        = .exn (.keyError ("Metric " ++ (MetricKey.gauge .INPUT_TOKEN_COUNT).pyStr
            ++ " not initialized")) (TelemetryManager.pyInit "memobase-server" 9464)
    ∧ set_gauge_metric (TelemetryManager.pyInit "memobase-server" 9464)
        (.gauge .INPUT_TOKEN_COUNT) 3 none
        = .exn (.keyError ("Metric " ++ (MetricKey.gauge .INPUT_TOKEN_COUNT).pyStr
            ++ " not initialized")) (TelemetryManager.pyInit "memobase-server" 9464)
    ∧ increment_counter_metric stateAfterImport (.histogram .LLM_LATENCY_MS) 1 none
        = .exn (.attributeError "Histogram object has no attribute add") stateAfterImport
    ∧ record_histogram_metric stateAfterImport (.counter .REQUEST) 2 none
        = .exn (.attributeError "Counter object has no attribute record") stateAfterImport
    ∧ set_gauge_metric stateAfterImport (.histogram .LLM_LATENCY_MS) 3 none
        = .exn (.attributeError "Histogram object has no attribute set") stateAfterImport :=
  record_ops_wrong_kind_semantics
    (TelemetryManager.pyInit "memobase-server" 9464)
    stateAfterImport stateAfterImport stateAfterImport
    (.gauge .INPUT_TOKEN_COUNT)
    (.histogram .LLM_LATENCY_MS) (.counter .REQUEST) (.histogram .LLM_LATENCY_MS)
    (.histogram "memobase_server_llm_latency" "ms"
      "Latency of the LLM in milliseconds" [])
    (.counter "memobase_server_requests_total" "1"
      "Total number of requests to the memobase server" 0)
    (.histogram "memobase_server_llm_latency" "ms"
      "Latency of the LLM in milliseconds" [])
    1 2 3 none rfl
    (by decide) (by decide) (by decide) (by decide) (by decide) (by decide)

/-- Claim C10: module import constructs the global manager with the
default service name and port, runs `setup_telemetry` then
`setup_metrics`, and — whenever the bind outcome is one the source does
not re-raise — leaves a fully populated registry of matching kinds. -/
theorem import_constructs_populated_singleton (bind : Option Nat)
    (h : bind = none ∨ bind = some 48) :
    (∃ logs, moduleImport bind =
        .ok logs { service_name := "memobase-server", prometheus_port := 9464,
                   metrics := fullRegistry, meter := some "memobase-server" })
    ∧ fullRegistry.map Prod.fst = catalogKeys
    ∧ (fullRegistry.all fun q => decide (q.2.kind = q.1.kind)) = true := by
  rcases h with rfl | rfl
  · exact ⟨⟨[], rfl⟩, by decide, by decide⟩
  · exact ⟨⟨["Prometheus HTTP server already running on port " ++ toString 9464], rfl⟩,
           by decide, by decide⟩

/-- Witness for `import_constructs_populated_singleton` at a successful
bind. -/
theorem import_constructs_populated_singleton_witness :
    (∃ logs, moduleImport none =
        .ok logs { service_name := "memobase-server", prometheus_port := 9464,
                   metrics := fullRegistry, meter := some "memobase-server" })
    ∧ fullRegistry.map Prod.fst = catalogKeys
    ∧ (fullRegistry.all fun q => decide (q.2.kind = q.1.kind)) = true :=
  import_constructs_populated_singleton none (Or.inl rfl)
